import Mathlib

set_option maxHeartbeats 1000000

/-!
Verification of the `governor` command-line client (files `governor/governance.py`,
`governor/score/governance.py`, `governor/command/system_score_command.py`).

The development shallowly embeds the repository's code: pure dictionary shaping
becomes Lean functions, the side effects of each operation (signing, submitting,
estimating, printing, reading the terminal) become an explicit event trace, and
Python exceptions become `Except` values.  External collaborators (the `icon`
SDK client, the file system, the predefined-nid table, the terminal) are passed
in as explicit parameters.
-/

/-! ## Python numeric text: `int(s, base=0)` and `hex(n)`

`GovernanceReader.get_step_price`, `GovernanceReader.get_max_step_limit`,
`GovernanceScore.get_step_price`, `GovernanceScore.get_max_step_limit` (and the
`is_*` readers) all decode response fields with `int(ret, base=0)`.  The
functions below model CPython's `int(s, base=0)` literal parsing: optional
surrounding whitespace, one optional sign, then either a `0x`/`0o`/`0b` tagged
numeral, a plain decimal numeral, or a zero numeral (a leading `0` followed by
a nonzero digit is rejected).  Single underscores are permitted between digits
and directly after the base tag. -/

/-- The character CPython prints for the digit value `d` (`0`-`9` then `a`-`f`). -/
def pyDigitChar (d : Nat) : Char :=
  if d < 10 then Char.ofNat (48 + d) else Char.ofNat (87 + d)

/-- `str.strip()`: drop leading and trailing whitespace characters. -/
def pyStrip (cs : List Char) : List Char :=
  ((cs.dropWhile Char.isWhitespace).reverse.dropWhile Char.isWhitespace).reverse

/-- Value of a decimal digit character. -/
def decDigitVal (c : Char) : Option Nat :=
  if '0' ≤ c ∧ c ≤ '9' then some (c.toNat - 48) else none

/-- Value of a hexadecimal digit character. -/
def hexDigitVal (c : Char) : Option Nat :=
  if '0' ≤ c ∧ c ≤ '9' then some (c.toNat - 48)
  else if 'a' ≤ c ∧ c ≤ 'f' then some (c.toNat - 87)
  else if 'A' ≤ c ∧ c ≤ 'F' then some (c.toNat - 55)
  else none

/-- Value of an octal digit character. -/
def octDigitVal (c : Char) : Option Nat :=
  if '0' ≤ c ∧ c ≤ '7' then some (c.toNat - 48) else none

/-- Value of a binary digit character. -/
def binDigitVal (c : Char) : Option Nat :=
  if c = '0' ∨ c = '1' then some (c.toNat - 48) else none

/-- Digit function accepting only `0`, for numerals that start with `0`
and carry no base tag (CPython rejects any nonzero digit there). -/
def zeroDigitVal (c : Char) : Option Nat :=
  if c = '0' then some 0 else none

/-- Accumulate digit characters in base `b` using digit table `dv`.
A single underscore may stand between two digits; a trailing or doubled
underscore fails, as in CPython. -/
def parseDigitsAux (dv : Char → Option Nat) (b : Nat) : List Char → Nat → Option Nat
  | [], acc => some acc
  | c :: rest, acc =>
    if c = '_' then
      match rest with
      | [] => none
      | c2 :: rest2 =>
        match dv c2 with
        | some d => parseDigitsAux dv b rest2 (acc * b + d)
        | none => none
    else
      match dv c with
      | some d => parseDigitsAux dv b rest (acc * b + d)
      | none => none

/-- A nonempty run of digits that does not start with an underscore. -/
def parseDigits (dv : Char → Option Nat) (b : Nat) : List Char → Option Nat
  | [] => none
  | c :: rest => if c = '_' then none else parseDigitsAux dv b (c :: rest) 0

/-- Digits directly after a base tag; CPython additionally permits one
underscore right after the tag, as in `0x_ff`. -/
def parsePrefixedDigits (dv : Char → Option Nat) (b : Nat) : List Char → Option Nat
  | [] => none
  | c :: rest => if c = '_' then parseDigits dv b rest else parseDigits dv b (c :: rest)

/-- Body of a base-0 numeral after an initial `0`:
either a base tag and its digits, or only further zero digits. -/
def parseZeroBody : List Char → Option Nat
  | [] => some 0
  | c :: rest =>
    if c = 'x' ∨ c = 'X' then parsePrefixedDigits hexDigitVal 16 rest
    else if c = 'o' ∨ c = 'O' then parsePrefixedDigits octDigitVal 8 rest
    else if c = 'b' ∨ c = 'B' then parsePrefixedDigits binDigitVal 2 rest
    else parseDigitsAux zeroDigitVal 10 (c :: rest) 0

/-- Unsigned body of a base-0 numeral. -/
def parseBodyBase0 : List Char → Option Nat
  | [] => none
  | c :: rest =>
    if c = '0' then parseZeroBody rest
    else parseDigits decDigitVal 10 (c :: rest)

/-- Signed base-0 numeral on an already stripped character list. -/
def pyIntBase0Chars : List Char → Option Int
  | [] => none
  | c :: rest =>
    if c = '+' then (parseBodyBase0 rest).map (fun v => (v : Int))
    else if c = '-' then (parseBodyBase0 rest).map (fun v => -(v : Int))
    else (parseBodyBase0 (c :: rest)).map (fun v => (v : Int))

/-- CPython `int(s, base=0)`: `none` models a raised `ValueError`.
This is the response-field decoder the repository applies to every numeric
field (`int(ret, base=0)` in both governance modules). -/
def pythonIntBase0 (s : String) : Option Int :=
  pyIntBase0Chars (pyStrip s.toList)

/-- The digit characters of `n` in base `b`, most significant first
(the digits CPython prints for `n ≥ 0`; for the degenerate base `b ≤ 1` a
single digit is returned, such a base is never used below). -/
def natToDigitsIn (b : Nat) (n : Nat) : List Char :=
  if _h : n < b ∨ b ≤ 1 then [pyDigitChar n]
  else natToDigitsIn b (n / b) ++ [pyDigitChar (n % b)]
termination_by n
decreasing_by exact Nat.div_lt_self (by omega) (by omega)

/-- Modelled from the spec: the hex encoding of a numeric argument, performed
for the wire format by the external `icon` SDK, is CPython `hex(n)` for
`n ≥ 0`: the characters `0x` followed by the hexadecimal digits of `n`. -/
def pythonHex (n : Nat) : String :=
  String.mk ('0' :: 'x' :: natToDigitsIn 16 n)

/-- CPython `str(n)` for `n ≥ 0`: the decimal digits of `n`. -/
def natToDecString (n : Nat) : String :=
  String.mk (natToDigitsIn 10 n)

/-! ## Data model

Request payloads, transactions, side-effect events and Python exceptions.
`icon.CallBuilder` produces a read-only call payload; `CallTransactionBuilder`
and `DeployTransactionBuilder` produce transactions.  External collaborators
appear as record-of-function parameters. -/

/-- A value placed in a parameter dictionary. -/
inductive PValue where
  | str (s : String)
  | int (n : Int)
  | bytes (bs : List Nat)
deriving DecidableEq

/-- A parameter dictionary: string keys in insertion order. -/
abbrev Params := List (String × PValue)

/-- The read-only call payload built by `icon.CallBuilder`:
sender (when given), target score, method name, argument dictionary. -/
structure CallPayload where
  from_ : Option String
  to_ : String
  method : String
  params : Option Params
deriving DecidableEq

/-- The data section of a transaction. -/
inductive TxData where
  | callData (method : String) (params : Option Params)
  | deployData (path : String)
deriving DecidableEq

/-- A transaction built by `icon.CallTransactionBuilder` or
`icon.DeployTransactionBuilder`.  `stepLimit = none` when the builder's
`step_limit` setter was never invoked. -/
structure Transaction where
  nid : Int
  from_ : String
  to_ : String
  stepLimit : Option Nat
  data : TxData
deriving DecidableEq

/-- Observable side effects of one operation, in order of occurrence. -/
inductive Event where
  | onSendRequest (p : CallPayload)
  | clientCall (p : CallPayload)
  | clientEstimateStep (tx : Transaction)
  | signTx (tx : Transaction)
  | clientSendTransaction (tx : Transaction)
  | printRequestEvent
  | readInputLine
  | valueErrorConstructed (msg : String)
deriving DecidableEq

/-- `true` exactly on the signing/submission/estimation effects:
the effects a read-only operation must never produce. -/
def Event.is_write_effect : Event → Bool
  | .signTx _ => true
  | .clientSendTransaction _ => true
  | .clientEstimateStep _ => true
  | _ => false

/-- A raised Python exception. -/
inductive PyError where
  | valueError (msg : String)
  | exception (msg : String)
deriving DecidableEq

/-- Modelled from the spec: `GOVERNANCE_ADDRESS` lives in `governor/constants.py`
which is not under `src/`; it is the fixed address of the governance score. -/
def GOVERNANCE_ADDRESS : String := "cx0000000000000000000000000000000000000001"

/-- Modelled from the spec: `EOA_ADDRESS` lives in `governor/constants.py`
which is not under `src/`; it is the default sender address of a reader. -/
def EOA_ADDRESS : String := "hx0000000000000000000000000000000000000000"

/-- `icon.data.GOVERNANCE_SCORE_ADDRESS`, the same fixed governance address,
imported by `governor/score/governance.py` from the external SDK. -/
def GOVERNANCE_SCORE_ADDRESS : String := GOVERNANCE_ADDRESS

/-- Modelled from the spec: the system score address used by `claimIScore`;
the `SystemScore` class is not under `src/`. -/
def SYSTEM_SCORE_ADDRESS : String := "cx0000000000000000000000000000000000000000"

/-- `os.path.join(a, b)` for one POSIX component: an absolute `b` replaces
`a`, otherwise a single separator joins them. -/
def os_path_join (a b : String) : String :=
  if b.toList.head? = some '/' then b
  else if a = "" ∨ a.toList.getLast? = some '/' then a ++ b
  else a ++ "/" ++ b

/-! ## `governor/governance.py`: `GovernanceReader` -/

/-- The part of the external `icon.Client` a reader touches:
`call` returns the response of a read-only query (single-valued responses are
decoded by the readers; dictionary responses are kept opaque). -/
structure ReaderClient where
  call : CallPayload → String

/-- `GovernanceReader`: a client, a network id and a sender address
(`EOA_ADDRESS` by default).  It holds no wallet and no private key. -/
structure GovernanceReader where
  client : ReaderClient
  nid : Int
  from_ : String

/-- `GovernanceReader._call`: build a read-only call payload with
`icon.CallBuilder`, announce it to the `on_send_request` listener, send it. -/
def GovernanceReader._call (r : GovernanceReader) (method : String)
    (params : Option Params) : List Event × String :=
  let p : CallPayload := ⟨some r.from_, GOVERNANCE_ADDRESS, method, params⟩
  ([Event.onSendRequest p, Event.clientCall p], r.client.call p)

/-- `GovernanceReader.get_version`. -/
def GovernanceReader.get_version (r : GovernanceReader) : List Event × String :=
  r._call "getVersion" none

/-- `GovernanceReader.get_revision` (dictionary response, kept opaque). -/
def GovernanceReader.get_revision (r : GovernanceReader) : List Event × String :=
  r._call "getRevision" none

/-- `GovernanceReader.get_service_config` (dictionary response, kept opaque). -/
def GovernanceReader.get_service_config (r : GovernanceReader) : List Event × String :=
  r._call "getServiceConfig" none

/-- `GovernanceReader.get_score_status`. -/
def GovernanceReader.get_score_status (r : GovernanceReader) (address : String) :
    List Event × String :=
  r._call "getScoreStatus" (some [("address", PValue.str address)])

/-- `GovernanceReader.get_step_costs` (dictionary response, kept opaque). -/
def GovernanceReader.get_step_costs (r : GovernanceReader) : List Event × String :=
  r._call "getStepCosts" none

/-- `GovernanceReader.get_step_price`: `int(ret, base=0)`;
`none` models the `ValueError` a malformed response raises. -/
def GovernanceReader.get_step_price (r : GovernanceReader) : List Event × Option Int :=
  let res := r._call "getStepPrice" none
  (res.1, pythonIntBase0 res.2)

/-- `GovernanceReader.get_max_step_limit`: `int(ret, base=0)`. -/
def GovernanceReader.get_max_step_limit (r : GovernanceReader) (context_type : String) :
    List Event × Option Int :=
  let res := r._call "getMaxStepLimit" (some [("contextType", PValue.str context_type)])
  (res.1, pythonIntBase0 res.2)

/-- `GovernanceReader.is_deployer`: `bool(int(ret, base=0))`. -/
def GovernanceReader.is_deployer (r : GovernanceReader) (address : String) :
    List Event × Option Bool :=
  let res := r._call "isDeployer" (some [("address", PValue.str address)])
  (res.1, (pythonIntBase0 res.2).map (fun v => v ≠ 0))

/-- `GovernanceReader.is_in_score_black_list`: `bool(int(ret, base=0))`. -/
def GovernanceReader.is_in_score_black_list (r : GovernanceReader) (address : String) :
    List Event × Option Bool :=
  let res := r._call "isInScoreBlackList" (some [("address", PValue.str address)])
  (res.1, (pythonIntBase0 res.2).map (fun v => v ≠ 0))

/-- `GovernanceReader.is_in_import_white_list`: `bool(int(ret, base=0))`. -/
def GovernanceReader.is_in_import_white_list (r : GovernanceReader) (import_stmt : String) :
    List Event × Option Bool :=
  let res := r._call "isInImportWhiteList" (some [("importStmt", PValue.str import_stmt)])
  (res.1, (pythonIntBase0 res.2).map (fun v => v ≠ 0))

/-! ## `governor/governance.py`: `GovernanceWriter` -/

/-- The part of the external `icon.Client` a writer touches:
step estimation and transaction submission. -/
structure WriterClient where
  estimate_step : Transaction → Nat
  send_transaction : Transaction → List Nat

/-- `icon.KeyWallet`: the owner wallet loaded from the keystore. -/
structure KeyWallet where
  address : String
  private_key : List Nat
deriving DecidableEq

/-- `GovernanceWriter`: client, network id, owner wallet, step limit and the
`--estimate` flag. -/
structure GovernanceWriter where
  client : WriterClient
  nid : Int
  owner : KeyWallet
  step_limit : Nat
  estimate : Bool

/-- What a write operation returns: an estimated step count (`--estimate`)
or the transaction hash reported by the node. -/
inductive WriteResult where
  | estimatedStep (n : Nat)
  | txHash (h : List Nat)
deriving DecidableEq

/-- `GovernanceWriter._create_call_tx`: `icon.CallTransactionBuilder` with
nid, sender, governance address, the configured step limit and call data. -/
def GovernanceWriter._create_call_tx (w : GovernanceWriter) (method : String)
    (params : Option Params) : Transaction :=
  ⟨w.nid, w.owner.address, GOVERNANCE_ADDRESS, some w.step_limit,
    TxData.callData method params⟩

/-- `GovernanceWriter._create_update_tx`: `icon.DeployTransactionBuilder` with
nid, sender, governance address, the configured step limit and deploy data
read from `score_path`. -/
def GovernanceWriter._create_update_tx (w : GovernanceWriter) (score_path : String) :
    Transaction :=
  ⟨w.nid, w.owner.address, GOVERNANCE_ADDRESS, some w.step_limit,
    TxData.deployData score_path⟩

/-- `GovernanceWriter._estimate_step`: ask the client for the step estimate. -/
def GovernanceWriter._estimate_step (w : GovernanceWriter) (tx : Transaction) :
    List Event × WriteResult :=
  ([Event.clientEstimateStep tx], WriteResult.estimatedStep (w.client.estimate_step tx))

/-- `GovernanceWriter._send_transaction`: sign with the owner key, submit. -/
def GovernanceWriter._send_transaction (w : GovernanceWriter) (tx : Transaction) :
    List Event × WriteResult :=
  ([Event.signTx tx, Event.clientSendTransaction tx],
    WriteResult.txHash (w.client.send_transaction tx))

/-- `GovernanceWriter._run`: estimate when `--estimate` was given,
otherwise sign and submit. -/
def GovernanceWriter._run (w : GovernanceWriter) (tx : Transaction) :
    List Event × WriteResult :=
  if w.estimate then w._estimate_step tx else w._send_transaction tx

/-- `GovernanceWriter._call`: build a call transaction, then `_run` it. -/
def GovernanceWriter._call (w : GovernanceWriter) (method : String)
    (params : Option Params) : List Event × WriteResult :=
  w._run (w._create_call_tx method params)

/-- The fixed `step_types` tuple of `GovernanceWriter.set_step_cost`
(also the `step_types` set of `GovernanceScore.set_step_cost`). -/
def step_types : List String :=
  ["default", "contractCall", "contractCreate", "contractUpdate",
   "contractDestruct", "contractSet", "get", "set", "replace", "delete",
   "input", "eventlog", "apiCall"]

/-- `GovernanceWriter.set_step_cost`: `ValueError` on a `step_type` outside
`step_types`, before any transaction is built; otherwise a `setStepCost`
call transaction. -/
def GovernanceWriter.set_step_cost (w : GovernanceWriter) (step_type : String)
    (cost : Int) : List Event × Except PyError WriteResult :=
  if step_type ∈ step_types then
    let res := w._call "setStepCost"
      (some [("stepType", PValue.str step_type), ("cost", PValue.int cost)])
    (res.1, Except.ok res.2)
  else
    ([], Except.error (PyError.valueError ("Invalid stepType: " ++ step_type)))

/-- The fixed `context_types` tuple of `GovernanceWriter.set_max_step_limit`
(also the `context_types` set of `GovernanceScore.set_max_step_limit`). -/
def context_types : List String := ["invoke", "query"]

/-- `GovernanceWriter.set_max_step_limit`: `ValueError` on a `context_type`
outside `context_types`, before any transaction is built; otherwise a
`setMaxStepLimit` call transaction. -/
def GovernanceWriter.set_max_step_limit (w : GovernanceWriter) (context_type : String)
    (value : Int) : List Event × Except PyError WriteResult :=
  if context_type ∈ context_types then
    let res := w._call "setMaxStepLimit"
      (some [("contextType", PValue.str context_type), ("value", PValue.int value)])
    (res.1, Except.ok res.2)
  else
    ([], Except.error (PyError.valueError ("Invalid contextType: " ++ context_type)))

/-- `GovernanceWriter.update`: raise when `score_path/package.json` is not a
file, before any transaction is built; otherwise a deploy transaction run
through `_run`.  `isFile` stands for `os.path.isfile`. -/
def GovernanceWriter.update (isFile : String → Bool) (w : GovernanceWriter)
    (score_path : String) : List Event × Except PyError WriteResult :=
  let path := os_path_join score_path ("package.json")
  if isFile path = false then
    ([], Except.error (PyError.exception ("Invalid score path: " ++ score_path)))
  else
    let res := w._run (w._create_update_tx score_path)
    (res.1, Except.ok res.2)

/-! ## `governor/score/governance.py`: `GovernanceScore` -/

/-- The part of the external `icon.Client` a `GovernanceScore` touches. -/
structure ScoreClient where
  call : CallPayload → String
  send_transaction : Transaction → List Nat

/-- `GovernanceScore`: client, owner wallet, network id, step limit,
`estimate` flag; its score address is the fixed governance address. -/
structure GovernanceScore where
  client : ScoreClient
  owner : KeyWallet
  nid : Int
  step_limit : Nat
  estimate : Bool

/-- `self._score_address`, set to `GOVERNANCE_SCORE_ADDRESS` on construction. -/
def GovernanceScore.score_address (_ : GovernanceScore) : String :=
  GOVERNANCE_SCORE_ADDRESS

/-- `GovernanceScore._create_query_call`: `icon.builder.CallBuilder` without a
sender: target address, method, arguments. -/
def GovernanceScore._create_query_call (s : GovernanceScore) (method : String)
    (params : Option Params) : CallPayload :=
  ⟨none, s.score_address, method, params⟩

/-- `GovernanceScore._create_call_tx`: when estimating, build the transaction
without a step limit and do not sign it; otherwise attach the step limit
(the `step_limit` keyword argument wins over the stored one) and sign.
The keyword arguments default to the constructor state.  Returns the events
produced and the built transaction. -/
def GovernanceScore._create_call_tx (s : GovernanceScore) (method : String)
    (params : Option Params) (estimate_kw : Option Bool)
    (step_limit_kw : Option Nat) : List Event × Transaction :=
  let estimate := estimate_kw.getD s.estimate
  if estimate then
    let tx : Transaction :=
      ⟨s.nid, s.owner.address, s.score_address, none, TxData.callData method params⟩
    ([], tx)
  else
    let step_limit := step_limit_kw.getD s.step_limit
    let tx : Transaction :=
      ⟨s.nid, s.owner.address, s.score_address, some step_limit,
        TxData.callData method params⟩
    ([Event.signTx tx], tx)

/-- `GovernanceScore.deploy`: raise when `path/package.json` is not a file,
before any transaction is built; otherwise build the deploy transaction from
the joined path (unsigned and without step limit when estimating) and hand it
to `client.send_transaction` in every case. -/
def GovernanceScore.deploy (isFile : String → Bool) (s : GovernanceScore)
    (path : String) (estimate_kw : Option Bool) (step_limit_kw : Option Nat) :
    List Event × Except PyError (List Nat) :=
  let path2 := os_path_join path ("package.json")
  if isFile path2 = false then
    ([], Except.error (PyError.exception ("Invalid score path: " ++ path2)))
  else
    let estimate := estimate_kw.getD s.estimate
    if estimate then
      let tx : Transaction :=
        ⟨s.nid, s.owner.address, s.score_address, none, TxData.deployData path2⟩
      ([Event.clientSendTransaction tx], Except.ok (s.client.send_transaction tx))
    else
      let step_limit := step_limit_kw.getD s.step_limit
      let tx : Transaction :=
        ⟨s.nid, s.owner.address, s.score_address, some step_limit,
          TxData.deployData path2⟩
      ([Event.signTx tx, Event.clientSendTransaction tx],
        Except.ok (s.client.send_transaction tx))

/-- `GovernanceScore.set_step_cost`: `ValueError` on a `step_type` outside
`step_types`, before any transaction is built or sent; otherwise a
`setStepCost` call transaction handed to `client.send_transaction`. -/
def GovernanceScore.set_step_cost (s : GovernanceScore) (step_type : String)
    (cost : Int) (estimate_kw : Option Bool) (step_limit_kw : Option Nat) :
    List Event × Except PyError (List Nat) :=
  if step_type ∈ step_types then
    let res := s._create_call_tx "setStepCost"
      (some [("stepType", PValue.str step_type), ("cost", PValue.int cost)])
      estimate_kw step_limit_kw
    (res.1 ++ [Event.clientSendTransaction res.2],
      Except.ok (s.client.send_transaction res.2))
  else
    ([], Except.error (PyError.valueError ("Invalid stepType: " ++ step_type)))

/-- `GovernanceScore.set_max_step_limit`: `ValueError` on a `context_type`
outside `context_types`, before any transaction is built or sent; otherwise a
`setMaxStepLimit` call transaction handed to `client.send_transaction`. -/
def GovernanceScore.set_max_step_limit (s : GovernanceScore) (context_type : String)
    (value : Int) (estimate_kw : Option Bool) (step_limit_kw : Option Nat) :
    List Event × Except PyError (List Nat) :=
  if context_type ∈ context_types then
    let res := s._create_call_tx "setMaxStepLimit"
      (some [("contextType", PValue.str context_type), ("value", PValue.int value)])
      estimate_kw step_limit_kw
    (res.1 ++ [Event.clientSendTransaction res.2],
      Except.ok (s.client.send_transaction res.2))
  else
    ([], Except.error (PyError.valueError ("Invalid contextType: " ++ context_type)))

/-- `GovernanceScore.get_version`. -/
def GovernanceScore.get_version (s : GovernanceScore) : List Event × String :=
  let p := s._create_query_call "getVersion" none
  ([Event.clientCall p], s.client.call p)

/-- `GovernanceScore.get_revision` (dictionary response, kept opaque). -/
def GovernanceScore.get_revision (s : GovernanceScore) : List Event × String :=
  let p := s._create_query_call "getRevision" none
  ([Event.clientCall p], s.client.call p)

/-- `GovernanceScore.get_service_config` (dictionary response, kept opaque). -/
def GovernanceScore.get_service_config (s : GovernanceScore) : List Event × String :=
  let p := s._create_query_call "getServiceConfig" none
  ([Event.clientCall p], s.client.call p)

/-- `GovernanceScore.get_score_status`. -/
def GovernanceScore.get_score_status (s : GovernanceScore) (address : String) :
    List Event × String :=
  let p := s._create_query_call "getScoreStatus" (some [("address", PValue.str address)])
  ([Event.clientCall p], s.client.call p)

/-- `GovernanceScore.get_step_price`: `int(ret, base=0)`. -/
def GovernanceScore.get_step_price (s : GovernanceScore) : List Event × Option Int :=
  let p := s._create_query_call "getStepPrice" none
  ([Event.clientCall p], pythonIntBase0 (s.client.call p))

/-- `GovernanceScore.get_step_costs` (dictionary response, kept opaque). -/
def GovernanceScore.get_step_costs (s : GovernanceScore) : List Event × String :=
  let p := s._create_query_call "getStepCosts" none
  ([Event.clientCall p], s.client.call p)

/-- `GovernanceScore.get_max_step_limit`: `int(ret, base=0)`. -/
def GovernanceScore.get_max_step_limit (s : GovernanceScore) (context_type : String) :
    List Event × Option Int :=
  let p := s._create_query_call "getMaxStepLimit"
    (some [("contextType", PValue.str context_type)])
  ([Event.clientCall p], pythonIntBase0 (s.client.call p))

/-- `GovernanceScore.is_in_score_black_list`: `bool(int(ret, base=0))`. -/
def GovernanceScore.is_in_score_black_list (s : GovernanceScore) (address : String) :
    List Event × Option Bool :=
  let p := s._create_query_call "isInScoreBlackList"
    (some [("address", PValue.str address)])
  ([Event.clientCall p], (pythonIntBase0 (s.client.call p)).map (fun v => v ≠ 0))

/-- `GovernanceScore.is_in_import_white_list`: `bool(int(ret, base=0))`. -/
def GovernanceScore.is_in_import_white_list (s : GovernanceScore) (import_stmt : String) :
    List Event × Option Bool :=
  let p := s._create_query_call "isInImportWhiteList"
    (some [("importStmt", PValue.str import_stmt)])
  ([Event.clientCall p], (pythonIntBase0 (s.client.call p)).map (fun v => v ≠ 0))

/-! ## Read-only operations, enumerated

One constructor per query method of `GovernanceReader` and of
`GovernanceScore`, carrying that method's arguments. -/

/-- The query methods of `GovernanceReader`. -/
inductive ReaderOp where
  | get_version
  | get_revision
  | get_service_config
  | get_score_status (address : String)
  | get_step_costs
  | get_step_price
  | get_max_step_limit (context_type : String)
  | is_deployer (address : String)
  | is_in_score_black_list (address : String)
  | is_in_import_white_list (import_stmt : String)

/-- The remote method name a `ReaderOp` invokes. -/
def ReaderOp.method : ReaderOp → String
  | .get_version => "getVersion"
  | .get_revision => "getRevision"
  | .get_service_config => "getServiceConfig"
  | .get_score_status _ => "getScoreStatus"
  | .get_step_costs => "getStepCosts"
  | .get_step_price => "getStepPrice"
  | .get_max_step_limit _ => "getMaxStepLimit"
  | .is_deployer _ => "isDeployer"
  | .is_in_score_black_list _ => "isInScoreBlackList"
  | .is_in_import_white_list _ => "isInImportWhiteList"

/-- The argument dictionary a `ReaderOp` sends. -/
def ReaderOp.call_params : ReaderOp → Option Params
  | .get_version => none
  | .get_revision => none
  | .get_service_config => none
  | .get_score_status a => some [("address", PValue.str a)]
  | .get_step_costs => none
  | .get_step_price => none
  | .get_max_step_limit ct => some [("contextType", PValue.str ct)]
  | .is_deployer a => some [("address", PValue.str a)]
  | .is_in_score_black_list a => some [("address", PValue.str a)]
  | .is_in_import_white_list st => some [("importStmt", PValue.str st)]

/-- The read-only payload a `ReaderOp` builds on reader `r`. -/
def ReaderOp.payload (op : ReaderOp) (r : GovernanceReader) : CallPayload :=
  ⟨some r.from_, GOVERNANCE_ADDRESS, op.method, op.call_params⟩

/-- The event trace of a `ReaderOp` on reader `r`. -/
def ReaderOp.run (op : ReaderOp) (r : GovernanceReader) : List Event :=
  match op with
  | .get_version => (r.get_version).1
  | .get_revision => (r.get_revision).1
  | .get_service_config => (r.get_service_config).1
  | .get_score_status a => (r.get_score_status a).1
  | .get_step_costs => (r.get_step_costs).1
  | .get_step_price => (r.get_step_price).1
  | .get_max_step_limit ct => (r.get_max_step_limit ct).1
  | .is_deployer a => (r.is_deployer a).1
  | .is_in_score_black_list a => (r.is_in_score_black_list a).1
  | .is_in_import_white_list st => (r.is_in_import_white_list st).1

/-- The query methods of `GovernanceScore`. -/
inductive ScoreQueryOp where
  | get_version
  | get_revision
  | get_service_config
  | get_score_status (address : String)
  | get_step_price
  | get_step_costs
  | get_max_step_limit (context_type : String)
  | is_in_score_black_list (address : String)
  | is_in_import_white_list (import_stmt : String)

/-- The remote method name a `ScoreQueryOp` invokes. -/
def ScoreQueryOp.method : ScoreQueryOp → String
  | .get_version => "getVersion"
  | .get_revision => "getRevision"
  | .get_service_config => "getServiceConfig"
  | .get_score_status _ => "getScoreStatus"
  | .get_step_price => "getStepPrice"
  | .get_step_costs => "getStepCosts"
  | .get_max_step_limit _ => "getMaxStepLimit"
  | .is_in_score_black_list _ => "isInScoreBlackList"
  | .is_in_import_white_list _ => "isInImportWhiteList"

/-- The argument dictionary a `ScoreQueryOp` sends. -/
def ScoreQueryOp.call_params : ScoreQueryOp → Option Params
  | .get_version => none
  | .get_revision => none
  | .get_service_config => none
  | .get_score_status a => some [("address", PValue.str a)]
  | .get_step_price => none
  | .get_step_costs => none
  | .get_max_step_limit ct => some [("contextType", PValue.str ct)]
  | .is_in_score_black_list a => some [("address", PValue.str a)]
  | .is_in_import_white_list st => some [("importStmt", PValue.str st)]

/-- The read-only payload a `ScoreQueryOp` builds on score `s`. -/
def ScoreQueryOp.payload (op : ScoreQueryOp) (s : GovernanceScore) : CallPayload :=
  ⟨none, s.score_address, op.method, op.call_params⟩

/-- The event trace of a `ScoreQueryOp` on score `s`. -/
def ScoreQueryOp.run (op : ScoreQueryOp) (s : GovernanceScore) : List Event :=
  match op with
  | .get_version => (s.get_version).1
  | .get_revision => (s.get_revision).1
  | .get_service_config => (s.get_service_config).1
  | .get_score_status a => (s.get_score_status a).1
  | .get_step_price => (s.get_step_price).1
  | .get_step_costs => (s.get_step_costs).1
  | .get_max_step_limit ct => (s.get_max_step_limit ct).1
  | .is_in_score_black_list a => (s.is_in_score_black_list a).1
  | .is_in_import_white_list st => (s.is_in_import_white_list st).1

/-! ## Confirmation callbacks and nid resolution (`governor/governance.py`) -/

/-- `_confirm_callback`: print the request; unless `--yes` was given read one
line from the terminal and abort exactly on the answer `"n"`.
`input_line` stands for what `input()` would return. -/
def _confirm_callback (input_line : String) (content : CallPayload) (yes : Bool) :
    List Event × Bool :=
  let evs := [Event.printRequestEvent]
  if yes then (evs, true)
  else
    let evs2 := evs ++ [Event.readInputLine]
    if input_line = "n" then (evs2, false) else (evs2, true)

/-- Modelled from the spec: `confirm_transaction` lives in `governor/utils.py`,
which is not under `src/`.  The spec makes the interactive confirmation prompt
skippable via the `--yes` flag, mirroring `_confirm_callback` above: print the
request, and only when `yes` is false read a line and abort on `"n"`. -/
def confirm_transaction (input_line : String) (content : Transaction) (yes : Bool) :
    List Event × Bool :=
  let evs := [Event.printRequestEvent]
  if yes then (evs, true)
  else
    let evs2 := evs ++ [Event.readInputLine]
    if input_line = "n" then (evs2, false) else (evs2, true)

/-- Modelled from the spec: `SystemScore.claim_iscore` lives in
`governor/score/system.py`, which is not under `src/`.  Following the spec's
write-command pattern, `ClaimIScoreCommand._run` builds a `claimIScore` call
transaction, runs the request hook `confirm_transaction` (with the command's
`--yes` flag), and on confirmation signs and submits; a rejected confirmation
aborts before signing.  The non-estimate path is modelled. -/
def claim_iscore_run (send : Transaction → List Nat) (wallet : KeyWallet)
    (nid : Int) (step_limit : Nat) (input_line : String) (yes : Bool) :
    List Event × Except PyError (List Nat) :=
  let tx : Transaction :=
    ⟨nid, wallet.address, SYSTEM_SCORE_ADDRESS, some step_limit,
      TxData.callData "claimIScore" none⟩
  let res := confirm_transaction input_line tx yes
  if res.2 then
    (res.1 ++ [Event.signTx tx, Event.clientSendTransaction tx],
      Except.ok (send tx))
  else
    (res.1, Except.error (PyError.exception "Transaction canceled"))

/-- `_get_nid`: when the `--nid` argument is negative, fall back to the
predefined network id of the URL (`get_predefined_nid` lives in
`governor/utils.py` and is passed here as a parameter); when that is negative
too, the code evaluates `ValueError("nid is required")` without raising it
(recorded as an event) and still returns the negative fallback. -/
def _get_nid (get_predefined_nid : String → Int) (nid : Int) (url : String) :
    List Event × Except PyError Int :=
  if nid < 0 then
    let nid2 := get_predefined_nid url
    if nid2 < 0 then
      ([Event.valueErrorConstructed "nid is required"], Except.ok nid2)
    else
      ([], Except.ok nid2)
  else
    ([], Except.ok nid)

/-! ## Lemmas: the numeral printer against the base-0 parser -/

/-- Unfolding `natToDigitsIn` on a single digit. -/
theorem natToDigitsIn_base (b n : Nat) (h : n < b ∨ b ≤ 1) :
    natToDigitsIn b n = [pyDigitChar n] := by
  rw [natToDigitsIn]
  exact dif_pos h

/-- Unfolding `natToDigitsIn` on several digits. -/
theorem natToDigitsIn_step (b n : Nat) (h : ¬(n < b ∨ b ≤ 1)) :
    natToDigitsIn b n = natToDigitsIn b (n / b) ++ [pyDigitChar (n % b)] := by
  rw [natToDigitsIn]
  exact dif_neg h

/-- Every printed character is a digit character of the base. -/
theorem natToDigitsIn_mem (b : Nat) (hb : 2 ≤ b) :
    ∀ n, ∀ c ∈ natToDigitsIn b n, ∃ d, d < b ∧ c = pyDigitChar d := by
  intro n
  induction n using Nat.strong_induction_on with
  | _ n ih =>
    intro c hc
    by_cases h : n < b ∨ b ≤ 1
    · rw [natToDigitsIn_base b n h, List.mem_singleton] at hc
      exact ⟨n, by omega, hc⟩
    · rw [natToDigitsIn_step b n h, List.mem_append] at hc
      rcases hc with h1 | h2
      · exact ih (n / b) (Nat.div_lt_self (by omega) (by omega)) c h1
      · rw [List.mem_singleton] at h2
        exact ⟨n % b, Nat.mod_lt n (by omega), h2⟩

/-- A printed numeral is never empty. -/
theorem natToDigitsIn_ne_nil (b n : Nat) : natToDigitsIn b n ≠ [] := by
  by_cases h : n < b ∨ b ≤ 1
  · rw [natToDigitsIn_base b n h]
    exact List.cons_ne_nil _ _
  · rw [natToDigitsIn_step b n h]
    intro he
    rcases List.append_eq_nil.mp he with ⟨-, h2⟩
    exact List.cons_ne_nil _ _ h2

/-- For `n ≥ 1` the printed numeral starts with a nonzero digit. -/
theorem natToDigitsIn_head (b : Nat) (hb : 2 ≤ b) :
    ∀ n, 1 ≤ n → ∃ d tl, 1 ≤ d ∧ d < b ∧ natToDigitsIn b n = pyDigitChar d :: tl := by
  intro n
  induction n using Nat.strong_induction_on with
  | _ n ih =>
    intro hn
    by_cases h : n < b ∨ b ≤ 1
    · exact ⟨n, [], hn, by omega, natToDigitsIn_base b n h⟩
    · have hlt : n / b < n := Nat.div_lt_self (by omega) (by omega)
      have hpos : 1 ≤ n / b := (Nat.one_le_div_iff (by omega)).mpr (by omega)
      obtain ⟨d, tl, h1, h2, h3⟩ := ih (n / b) hlt hpos
      refine ⟨d, tl ++ [pyDigitChar (n % b)], h1, h2, ?_⟩
      rw [natToDigitsIn_step b n h, h3]
      rfl

/-- Unfolding `parseDigitsAux` on a leading digit character. -/
theorem parseDigitsAux_cons_digit (dv : Char → Option Nat) (b : Nat) (c : Char)
    (rest : List Char) (acc d : Nat) (hne : c ≠ '_') (hd : dv c = some d) :
    parseDigitsAux dv b (c :: rest) acc = parseDigitsAux dv b rest (acc * b + d) := by
  cases rest with
  | nil => simp [parseDigitsAux, hne, hd]
  | cons c2 rest2 => simp [parseDigitsAux, hne, hd]

/-- Digit accumulation over a printed numeral followed by a remainder. -/
theorem parseDigitsAux_natToDigitsIn (dv : Char → Option Nat) (b : Nat) (hb : 2 ≤ b)
    (hdv : ∀ d, d < b → dv (pyDigitChar d) = some d) (hu : dv '_' = none) :
    ∀ n acc rest,
      parseDigitsAux dv b (natToDigitsIn b n ++ rest) acc =
        parseDigitsAux dv b rest (acc * b ^ (natToDigitsIn b n).length + n) := by
  intro n
  induction n using Nat.strong_induction_on with
  | _ n ih =>
    intro acc rest
    by_cases h : n < b ∨ b ≤ 1
    · have hnb : n < b := by omega
      have hd := hdv n hnb
      have hne : pyDigitChar n ≠ '_' := by
        intro he
        rw [he, hu] at hd
        exact Option.noConfusion hd
      rw [natToDigitsIn_base b n h]
      simp only [List.singleton_append, List.length_singleton, pow_one]
      exact parseDigitsAux_cons_digit dv b (pyDigitChar n) rest acc n hne hd
    · have hlt : n / b < n := Nat.div_lt_self (by omega) (by omega)
      have hm : n % b < b := Nat.mod_lt n (by omega)
      have hd := hdv (n % b) hm
      have hne : pyDigitChar (n % b) ≠ '_' := by
        intro he
        rw [he, hu] at hd
        exact Option.noConfusion hd
      rw [natToDigitsIn_step b n h, List.append_assoc, ih (n / b) hlt,
        List.singleton_append, parseDigitsAux_cons_digit dv b (pyDigitChar (n % b))
          rest _ (n % b) hne hd]
      congr 1
      rw [List.length_append, List.length_singleton]
      calc (acc * b ^ (natToDigitsIn b (n / b)).length + n / b) * b + n % b
          = acc * (b ^ (natToDigitsIn b (n / b)).length * b) + (b * (n / b) + n % b) := by
            ring
        _ = acc * b ^ ((natToDigitsIn b (n / b)).length + 1) + n := by
            rw [Nat.div_add_mod, pow_succ]

/-- A printed numeral parses back to its value. -/
theorem parseDigits_natToDigitsIn (dv : Char → Option Nat) (b : Nat) (hb : 2 ≤ b)
    (hdv : ∀ d, d < b → dv (pyDigitChar d) = some d) (hu : dv '_' = none) (n : Nat) :
    parseDigits dv b (natToDigitsIn b n) = some n := by
  have hmain := parseDigitsAux_natToDigitsIn dv b hb hdv hu n 0 []
  rw [List.append_nil] at hmain
  cases hcons : natToDigitsIn b n with
  | nil => exact absurd hcons (natToDigitsIn_ne_nil b n)
  | cons c cs =>
    have hcmem : c ∈ natToDigitsIn b n := by
      rw [hcons]
      exact List.mem_cons_self c cs
    obtain ⟨d, hdb, rfl⟩ := natToDigitsIn_mem b hb n c hcmem
    have hd := hdv d hdb
    have hne : pyDigitChar d ≠ '_' := by
      intro he
      rw [he, hu] at hd
      exact Option.noConfusion hd
    rw [hcons] at hmain
    simp only [parseDigits, if_neg hne]
    rw [hmain]
    simp [parseDigitsAux]

/-- Hexadecimal digit characters decode to their values. -/
theorem hexDigitVal_pyDigitChar : ∀ d, d < 16 → hexDigitVal (pyDigitChar d) = some d := by
  decide

/-- Decimal digit characters decode to their values. -/
theorem decDigitVal_pyDigitChar : ∀ d, d < 10 → decDigitVal (pyDigitChar d) = some d := by
  decide

/-- The underscore is not a hexadecimal digit. -/
theorem hexDigitVal_underscore : hexDigitVal '_' = none := by decide

/-- The underscore is not a decimal digit. -/
theorem decDigitVal_underscore : decDigitVal '_' = none := by decide

/-- Digit characters are not whitespace. -/
theorem pyDigitChar_not_whitespace : ∀ d, d < 16 → (pyDigitChar d).isWhitespace = false := by
  decide

/-- Digit characters are not a sign and not an underscore. -/
theorem pyDigitChar_ne_sign : ∀ d, d < 16 →
    pyDigitChar d ≠ '+' ∧ pyDigitChar d ≠ '-' ∧ pyDigitChar d ≠ '_' := by
  decide

/-- Nonzero decimal digit characters differ from the zero character. -/
theorem pyDigitChar_ne_zero_char : ∀ d, d < 10 → 1 ≤ d → pyDigitChar d ≠ '0' := by
  decide

/-- Dropping a prefix of `p`-characters does nothing when no character
satisfies `p`. -/
theorem dropWhile_eq_self_of_all {p : Char → Bool} :
    ∀ l : List Char, (∀ c ∈ l, p c = false) → l.dropWhile p = l := by
  intro l h
  cases l with
  | nil => rfl
  | cons c cs =>
    rw [List.dropWhile_cons, h c (List.mem_cons_self c cs)]
    simp

/-- Stripping does nothing to a string without whitespace. -/
theorem pyStrip_eq_self (l : List Char) (h : ∀ c ∈ l, c.isWhitespace = false) :
    pyStrip l = l := by
  have h2 : ∀ c ∈ l.reverse, c.isWhitespace = false := by
    intro c hc
    exact h c (List.mem_reverse.mp hc)
  unfold pyStrip
  rw [dropWhile_eq_self_of_all l h, dropWhile_eq_self_of_all l.reverse h2,
    List.reverse_reverse]

/-- `int(hex(n), base=0) = n`: the hex round trip of the wire encoding. -/
theorem pythonIntBase0_pythonHex (n : Nat) :
    pythonIntBase0 (pythonHex n) = some (n : Int) := by
  have hmem := natToDigitsIn_mem 16 (by norm_num) n
  have hws : ∀ c ∈ ('0' :: 'x' :: natToDigitsIn 16 n), c.isWhitespace = false := by
    intro c hc
    rcases List.mem_cons.mp hc with rfl | hc2
    · decide
    · rcases List.mem_cons.mp hc2 with rfl | hc3
      · decide
      · obtain ⟨d, hd16, rfl⟩ := hmem c hc3
        exact pyDigitChar_not_whitespace d hd16
  have htl : (pythonHex n).toList = '0' :: 'x' :: natToDigitsIn 16 n := rfl
  unfold pythonIntBase0
  rw [htl, pyStrip_eq_self _ hws]
  have hpre : ∀ l : List Char, pyIntBase0Chars ('0' :: 'x' :: l) =
      (parsePrefixedDigits hexDigitVal 16 l).map (fun v => (v : Int)) := by
    intro l
    simp [pyIntBase0Chars, parseBodyBase0, parseZeroBody]
  rw [hpre]
  cases hcons : natToDigitsIn 16 n with
  | nil => exact absurd hcons (natToDigitsIn_ne_nil 16 n)
  | cons c cs =>
    have hcmem : c ∈ natToDigitsIn 16 n := by
      rw [hcons]
      exact List.mem_cons_self c cs
    obtain ⟨d, hd16, rfl⟩ := hmem c hcmem
    have hne : pyDigitChar d ≠ '_' := (pyDigitChar_ne_sign d hd16).2.2
    simp only [parsePrefixedDigits]
    rw [if_neg hne, ← hcons,
      parseDigits_natToDigitsIn hexDigitVal 16 (by norm_num) hexDigitVal_pyDigitChar
        hexDigitVal_underscore n]
    rfl

/-- `int(str(n), base=0) = n`: the decoder accepts a plain decimal numeral. -/
theorem pythonIntBase0_natToDecString (n : Nat) :
    pythonIntBase0 (natToDecString n) = some (n : Int) := by
  have hmem := natToDigitsIn_mem 10 (by norm_num) n
  have hws : ∀ c ∈ natToDigitsIn 10 n, c.isWhitespace = false := by
    intro c hc
    obtain ⟨d, hd10, rfl⟩ := hmem c hc
    exact pyDigitChar_not_whitespace d (by omega)
  have htl : (natToDecString n).toList = natToDigitsIn 10 n := rfl
  unfold pythonIntBase0
  rw [htl, pyStrip_eq_self _ hws]
  by_cases hn : n = 0
  · subst hn
    rw [natToDigitsIn_base 10 0 (by norm_num)]
    decide
  · obtain ⟨d, tl, hd1, hd10, hcons⟩ := natToDigitsIn_head 10 (by norm_num) n (by omega)
    have hne0 : pyDigitChar d ≠ '0' := pyDigitChar_ne_zero_char d hd10 hd1
    have hnep : pyDigitChar d ≠ '+' := (pyDigitChar_ne_sign d (by omega)).1
    have hnem : pyDigitChar d ≠ '-' := (pyDigitChar_ne_sign d (by omega)).2.1
    have hneu : pyDigitChar d ≠ '_' := (pyDigitChar_ne_sign d (by omega)).2.2
    have hmain := parseDigitsAux_natToDigitsIn decDigitVal 10 (by norm_num)
      decDigitVal_pyDigitChar decDigitVal_underscore n 0 []
    rw [List.append_nil] at hmain
    rw [hcons]
    simp only [pyIntBase0Chars]
    rw [if_neg hnep, if_neg hnem]
    simp only [parseBodyBase0]
    rw [if_neg hne0]
    simp only [parseDigits]
    rw [if_neg hneu, ← hcons, hmain]
    simp [parseDigitsAux]

/-! ## The claims -/

/-- Claim C1 (amended): for `GovernanceWriter` write operations, the estimate
flag selects exactly between the two paths: when it is true, `_run` only asks
the client for a step estimate and returns that integer; when it is false,
`_run` signs and submits and returns the transaction hash.  For
`GovernanceScore.deploy`, however, estimating only skips signing and the step
limit: the transaction is still handed to `client.send_transaction`, whose
result is returned. -/
theorem C1_estimate_flag (w : GovernanceWriter) (tx : Transaction) :
    (w.estimate = true →
      w._run tx = ([Event.clientEstimateStep tx],
        WriteResult.estimatedStep (w.client.estimate_step tx))) ∧
    (w.estimate = false →
      w._run tx = ([Event.signTx tx, Event.clientSendTransaction tx],
        WriteResult.txHash (w.client.send_transaction tx))) ∧
    (∀ (isFile : String → Bool) (s : GovernanceScore) (path : String),
      s.estimate = true →
      isFile (os_path_join path ("package.json")) = true →
      s.deploy isFile path none none =
        ([Event.clientSendTransaction ⟨s.nid, s.owner.address, s.score_address, none,
            TxData.deployData (os_path_join path ("package.json"))⟩],
          Except.ok (s.client.send_transaction ⟨s.nid, s.owner.address,
            s.score_address, none,
            TxData.deployData (os_path_join path ("package.json"))⟩))) := by
  refine ⟨?_, ?_, ?_⟩
  · intro h
    simp [GovernanceWriter._run, GovernanceWriter._estimate_step, h]
  · intro h
    simp [GovernanceWriter._run, GovernanceWriter._send_transaction, h]
  · intro isFile s path hest hfile
    simp [GovernanceScore.deploy, hest, hfile]

/-- Claim C1 witness: both writer paths and the estimating deploy evaluated at
concrete inputs. -/
theorem C1_estimate_flag_witness :
    (GovernanceWriter._run ⟨⟨fun _ => 42, fun _ => [9]⟩, 1, ⟨"hx1", [7]⟩, 100, true⟩
        ⟨1, "hx1", GOVERNANCE_ADDRESS, some 100, TxData.callData "setRevision" none⟩ =
      ([Event.clientEstimateStep ⟨1, "hx1", GOVERNANCE_ADDRESS, some 100,
          TxData.callData "setRevision" none⟩], WriteResult.estimatedStep 42)) ∧
    (GovernanceWriter._run ⟨⟨fun _ => 42, fun _ => [9]⟩, 1, ⟨"hx1", [7]⟩, 100, false⟩
        ⟨1, "hx1", GOVERNANCE_ADDRESS, some 100, TxData.callData "setRevision" none⟩ =
      ([Event.signTx ⟨1, "hx1", GOVERNANCE_ADDRESS, some 100,
          TxData.callData "setRevision" none⟩,
        Event.clientSendTransaction ⟨1, "hx1", GOVERNANCE_ADDRESS, some 100,
          TxData.callData "setRevision" none⟩], WriteResult.txHash [9])) ∧
    (GovernanceScore.deploy (fun _ => true)
        ⟨⟨fun _ => "", fun _ => [3]⟩, ⟨"hx1", [7]⟩, 1, 100, true⟩ "score" none none =
      ([Event.clientSendTransaction ⟨1, "hx1", GOVERNANCE_SCORE_ADDRESS, none,
          TxData.deployData (os_path_join "score" ("package.json"))⟩],
        Except.ok [3])) := by
  refine ⟨(C1_estimate_flag _ _).1 rfl, (C1_estimate_flag _ _).2.1 rfl, ?_⟩
  exact (C1_estimate_flag ⟨⟨fun _ => 42, fun _ => [9]⟩, 1, ⟨"hx1", [7]⟩, 100, true⟩
      ⟨1, "hx1", GOVERNANCE_ADDRESS, some 100, TxData.callData "setRevision" none⟩).2.2
    (fun _ => true) ⟨⟨fun _ => "", fun _ => [3]⟩, ⟨"hx1", [7]⟩, 1, 100, true⟩ "score"
    rfl rfl

/-- Claim C1 counterexample: a deploy with the estimate flag set still emits
the submission call `client.send_transaction`, refuting "the
signing/submission path is never invoked" as stated. -/
theorem C1_counterexample :
    Event.clientSendTransaction ⟨1, "hx1", GOVERNANCE_SCORE_ADDRESS, none,
        TxData.deployData ("score/package.json")⟩ ∈
      (GovernanceScore.deploy (fun _ => true)
        ⟨⟨fun _ => "", fun _ => [3]⟩, ⟨"hx1", [7]⟩, 1, 100, true⟩ "score" none none).1 := by
  decide

/-- Claim C2 (amended): the response-field decoder `int(_, base=0)` does not
treat a missing `0x` tag as an error as such: it accepts every well-formed
base-0 integer literal, and in particular a plain decimal numeral decodes to
its decimal value (only strings that are not well-formed base-0 literals make
decoding fail). -/
theorem C2_decoder_accepts_decimal (n : Nat) :
    pythonIntBase0 (natToDecString n) = some (n : Int) ∧
    ∀ (nid : Int) (addr : String),
      (GovernanceReader.get_step_price ⟨⟨fun _ => natToDecString n⟩, nid, addr⟩).2 =
        some (n : Int) := by
  refine ⟨pythonIntBase0_natToDecString n, ?_⟩
  intro nid addr
  exact pythonIntBase0_natToDecString n

/-- Claim C2 counterexample: `"123"` carries no `0x` tag, yet
`get_step_price` decodes it to `123` instead of failing. -/
theorem C2_counterexample :
    (GovernanceReader.get_step_price ⟨⟨fun _ => "123"⟩, 1, EOA_ADDRESS⟩).2 =
      some (123 : Int) ∧
    "123".toList.take 2 ≠ ['0', 'x'] := by
  constructor
  · decide
  · decide

/-- Claim C3: for a `step_type` outside the fixed thirteen-element set, both
`set_step_cost` implementations raise `ValueError` with no event: no
transaction is built, signed or submitted and no network call happens. -/
theorem C3_set_step_cost_validation (step_type : String)
    (h : step_type ∉ step_types) :
    (∀ (w : GovernanceWriter) (cost : Int),
      w.set_step_cost step_type cost =
        ([], Except.error (PyError.valueError ("Invalid stepType: " ++ step_type)))) ∧
    (∀ (s : GovernanceScore) (cost : Int) (ek : Option Bool) (sk : Option Nat),
      s.set_step_cost step_type cost ek sk =
        ([], Except.error (PyError.valueError ("Invalid stepType: " ++ step_type)))) := by
  constructor
  · intro w cost
    simp [GovernanceWriter.set_step_cost, h]
  · intro s cost ek sk
    simp [GovernanceScore.set_step_cost, h]

/-- Claim C3 witness: both implementations evaluated at the invalid
`step_type` value `"foo"`. -/
theorem C3_set_step_cost_witness :
    (GovernanceWriter.set_step_cost
        ⟨⟨fun _ => 0, fun _ => []⟩, 1, ⟨"hx1", []⟩, 100, false⟩ "foo" 7 =
      ([], Except.error (PyError.valueError ("Invalid stepType: " ++ "foo")))) ∧
    (GovernanceScore.set_step_cost
        ⟨⟨fun _ => "", fun _ => []⟩, ⟨"hx1", []⟩, 1, 100, false⟩ "foo" 7 none none =
      ([], Except.error (PyError.valueError ("Invalid stepType: " ++ "foo")))) := by
  exact ⟨(C3_set_step_cost_validation "foo" (by decide)).1 _ 7,
    (C3_set_step_cost_validation "foo" (by decide)).2 _ 7 none none⟩

/-- Claim C4: for a `context_type` other than `"invoke"` and `"query"`, both
`set_max_step_limit` implementations raise `ValueError` with no event: no
transaction is built or submitted. -/
theorem C4_set_max_step_limit_validation (context_type : String)
    (h : context_type ∉ context_types) :
    (∀ (w : GovernanceWriter) (value : Int),
      w.set_max_step_limit context_type value =
        ([], Except.error
          (PyError.valueError ("Invalid contextType: " ++ context_type)))) ∧
    (∀ (s : GovernanceScore) (value : Int) (ek : Option Bool) (sk : Option Nat),
      s.set_max_step_limit context_type value ek sk =
        ([], Except.error
          (PyError.valueError ("Invalid contextType: " ++ context_type)))) := by
  constructor
  · intro w value
    simp [GovernanceWriter.set_max_step_limit, h]
  · intro s value ek sk
    simp [GovernanceScore.set_max_step_limit, h]

/-- Claim C4 witness: both implementations evaluated at the invalid
`context_type` value `"estimate"`. -/
theorem C4_set_max_step_limit_witness :
    (GovernanceWriter.set_max_step_limit
        ⟨⟨fun _ => 0, fun _ => []⟩, 1, ⟨"hx1", []⟩, 100, false⟩ "estimate" 7 =
      ([], Except.error (PyError.valueError ("Invalid contextType: " ++ "estimate")))) ∧
    (GovernanceScore.set_max_step_limit
        ⟨⟨fun _ => "", fun _ => []⟩, ⟨"hx1", []⟩, 1, 100, false⟩ "estimate" 7 none none =
      ([], Except.error (PyError.valueError ("Invalid contextType: " ++ "estimate")))) := by
  exact ⟨(C4_set_max_step_limit_validation "estimate" (by decide)).1 _ 7,
    (C4_set_max_step_limit_validation "estimate" (by decide)).2 _ 7 none none⟩

/-- Claim C5: when `package.json` does not exist under the given path, both
deployment operations raise before any transaction is built and produce no
event, in particular no network call. -/
theorem C5_deploy_manifest_validation (isFile : String → Bool) (score_path : String)
    (h : isFile (os_path_join score_path ("package.json")) = false) :
    (∀ (w : GovernanceWriter),
      GovernanceWriter.update isFile w score_path =
        ([], Except.error (PyError.exception ("Invalid score path: " ++ score_path)))) ∧
    (∀ (s : GovernanceScore) (ek : Option Bool) (sk : Option Nat),
      GovernanceScore.deploy isFile s score_path ek sk =
        ([], Except.error (PyError.exception
          ("Invalid score path: " ++ os_path_join score_path ("package.json"))))) := by
  constructor
  · intro w
    simp [GovernanceWriter.update, h]
  · intro s ek sk
    simp [GovernanceScore.deploy, h]

/-- Claim C5 witness: both deployment operations evaluated on a file system
without the manifest. -/
theorem C5_deploy_manifest_witness :
    (GovernanceWriter.update (fun _ => false)
        ⟨⟨fun _ => 0, fun _ => []⟩, 1, ⟨"hx1", []⟩, 100, false⟩ "bad" =
      ([], Except.error (PyError.exception ("Invalid score path: " ++ "bad")))) ∧
    (GovernanceScore.deploy (fun _ => false)
        ⟨⟨fun _ => "", fun _ => []⟩, ⟨"hx1", []⟩, 1, 100, false⟩ "bad" none none =
      ([], Except.error (PyError.exception
        ("Invalid score path: " ++ os_path_join "bad" ("package.json"))))) := by
  exact ⟨(C5_deploy_manifest_validation (fun _ => false) "bad" rfl).1 _,
    (C5_deploy_manifest_validation (fun _ => false) "bad" rfl).2 _ none none⟩

/-- Claim C6: with the yes flag, the `claimIScore` confirmation hook returns
confirmation without reading the terminal, and the run proceeds directly to
signing and submission, whatever the terminal would have answered. -/
theorem C6_yes_skips_prompt (send : Transaction → List Nat) (wallet : KeyWallet)
    (nid : Int) (step_limit : Nat) (input_line : String) :
    (confirm_transaction input_line
        ⟨nid, wallet.address, SYSTEM_SCORE_ADDRESS, some step_limit,
          TxData.callData "claimIScore" none⟩ true).2 = true ∧
    Event.readInputLine ∉
      (claim_iscore_run send wallet nid step_limit input_line true).1 ∧
    (claim_iscore_run send wallet nid step_limit input_line true).1 =
      [Event.printRequestEvent,
        Event.signTx ⟨nid, wallet.address, SYSTEM_SCORE_ADDRESS, some step_limit,
          TxData.callData "claimIScore" none⟩,
        Event.clientSendTransaction ⟨nid, wallet.address, SYSTEM_SCORE_ADDRESS,
          some step_limit, TxData.callData "claimIScore" none⟩] ∧
    (claim_iscore_run send wallet nid step_limit input_line true).2 =
      Except.ok (send ⟨nid, wallet.address, SYSTEM_SCORE_ADDRESS, some step_limit,
        TxData.callData "claimIScore" none⟩) := by
  refine ⟨rfl, ?_, rfl, rfl⟩
  simp [claim_iscore_run, confirm_transaction]

/-- Claim C8: every query operation of `GovernanceReader` announces and sends
exactly its read-only `{method, params}` payload, and every query operation of
`GovernanceScore` sends exactly its read-only payload; none of them signs,
submits or estimates a transaction. -/
theorem C8_readers_only_query :
    (∀ (op : ReaderOp) (r : GovernanceReader),
      op.run r = [Event.onSendRequest (op.payload r), Event.clientCall (op.payload r)] ∧
      (op.run r).all (fun e => !e.is_write_effect) = true) ∧
    (∀ (op : ScoreQueryOp) (s : GovernanceScore),
      op.run s = [Event.clientCall (op.payload s)] ∧
      (op.run s).all (fun e => !e.is_write_effect) = true) := by
  constructor
  · intro op r
    cases op <;> exact ⟨rfl, rfl⟩
  · intro op s
    cases op <;> exact ⟨rfl, rfl⟩

/-- Claim C9: without the yes flag, `_confirm_callback` reads one line and
aborts exactly on the answer `"n"`; any other line, including `"N"`, `"no"`
and the empty string, confirms. -/
theorem C9_confirm_callback_only_n (input_line : String) (content : CallPayload) :
    ((_confirm_callback input_line content false).2 = false ↔ input_line = "n") ∧
    (_confirm_callback input_line content false).1 =
      [Event.printRequestEvent, Event.readInputLine] := by
  constructor
  · by_cases h : input_line = "n" <;> simp [_confirm_callback, h]
  · by_cases h : input_line = "n" <;> simp [_confirm_callback, h]

/-- Claim C10: `_get_nid` never raises; in particular, when the `--nid`
argument is negative and the URL has no predefined network id, the
`ValueError` is constructed but not raised and the negative fallback nid is
returned to the caller. -/
theorem C10_get_nid_never_raises :
    (∀ (get_predefined_nid : String → Int) (nid : Int) (url : String),
      ∃ v : Int, (_get_nid get_predefined_nid nid url).2 = Except.ok v) ∧
    (∀ (get_predefined_nid : String → Int) (nid : Int) (url : String),
      nid < 0 → get_predefined_nid url < 0 →
      _get_nid get_predefined_nid nid url =
        ([Event.valueErrorConstructed "nid is required"],
          Except.ok (get_predefined_nid url))) := by
  constructor
  · intro p nid url
    by_cases h1 : nid < 0
    · by_cases h2 : p url < 0
      · exact ⟨p url, by simp [_get_nid, h1, h2]⟩
      · exact ⟨p url, by simp [_get_nid, h1, h2]⟩
    · exact ⟨nid, by simp [_get_nid, h1]⟩
  · intro p nid url h1 h2
    simp [_get_nid, h1, h2]

/-- Claim C10 witness: the resolver evaluated where both the argument nid and
the predefined nid are negative. -/
theorem C10_get_nid_witness :
    _get_nid (fun _ => -1) (-1) "http://x" =
      ([Event.valueErrorConstructed "nid is required"], Except.ok (-1)) := by
  exact C10_get_nid_never_raises.2 (fun _ => -1) (-1) "http://x" (by decide) (by decide)

/-- Claim C7: encoding a non-negative integer to a `0x`-prefixed hex string
and decoding it with the response-field decoder (`int(_, base=0)`)
reproduces the integer; in particular a reader whose client answers `hex(n)`
decodes the step price `n`. -/
theorem C7_hex_roundtrip (n : Nat) :
    pythonIntBase0 (pythonHex n) = some (n : Int) ∧
    ∀ (nid : Int) (addr : String),
      (GovernanceReader.get_step_price ⟨⟨fun _ => pythonHex n⟩, nid, addr⟩).2 =
        some (n : Int) := by
  refine ⟨pythonIntBase0_pythonHex n, ?_⟩
  intro nid addr
  exact pythonIntBase0_pythonHex n
